import Mathlib

/-!
Shallow embedding of the `hcw-ya` relative-motion propagation library
(Yamanaka–Ankersen state transition plus a Hill/Clohessy–Wiltshire
reference solution), with proofs of the specification's claims.

Numbers are modelled as real numbers (`ℝ`); the floating-point code of the
repository is translated operation by operation, keeping the source's
structure, argument order and names.  Thrown `Error`s are modelled with
`Except`.
-/

namespace HCWYA

open Real

/-- A 3-vector, as in `types.ts` (`Vector3 = readonly [number, number, number]`). -/
@[ext]
structure Vector3 where
  x : ℝ
  y : ℝ
  z : ℝ

/-- Relative position/velocity pair, as in `types.ts` (`RelativeState`). -/
@[ext]
structure RelativeState where
  position : Vector3
  velocity : Vector3

/-- Orbital elements, as in `types.ts` (`OrbitalElements`). -/
structure OrbitalElements where
  eccentricity : ℝ
  angularMomentum : ℝ
  gravitationalParameter : ℝ

/-- The two externally visible local-orbital frame tags, as in `types.ts`. -/
inductive Frame where
  | RIC
  | LVLH
deriving DecidableEq

/-- In-plane (x, z) sub-state in modified coordinates, as in `types.ts`. -/
@[ext]
structure InPlaneState where
  x : ℝ
  z : ℝ
  vx : ℝ
  vz : ℝ

/-- Out-of-plane (y) sub-state in modified coordinates, as in `types.ts`. -/
@[ext]
structure OutOfPlaneState where
  y : ℝ
  vy : ℝ

/-- The two validation errors thrown by the library (§7 of the spec):
`propagateYA` and `deriveAngularMomentum` throw on an eccentricity outside
`[0, 1)` (messages "Eccentricity must be in range [0, 1), got {e}" and
"eccentricity must be in [0,1)." respectively), and `deriveAngularMomentum`
throws "meanMotionRevPerDay must be > 0." on a non-positive mean motion. -/
inductive PropagationError where
  | invalidEccentricity
  | invalidMeanMotion
deriving DecidableEq

/-! ## Auxiliary scalar functions (`auxiliary-functions.ts`) -/

/-- `rho(e, theta) = 1 + e*cos(theta)` from `auxiliary-functions.ts`. -/
noncomputable def rho (e theta : ℝ) : ℝ :=
  1 + e * Real.cos theta

/-- `s(e, theta) = rho(e, theta)*sin(theta)` from `auxiliary-functions.ts`. -/
noncomputable def s (e theta : ℝ) : ℝ :=
  rho e theta * Real.sin theta

/-- `c(e, theta) = rho(e, theta)*cos(theta)` from `auxiliary-functions.ts`. -/
noncomputable def c (e theta : ℝ) : ℝ :=
  rho e theta * Real.cos theta

/-- `sPrime(e, theta) = cos(theta) + e*cos(2*theta)` from `auxiliary-functions.ts`. -/
noncomputable def sPrime (e theta : ℝ) : ℝ :=
  Real.cos theta + e * Real.cos (2 * theta)

/-- `cPrime(e, theta) = -(sin(theta) + e*sin(2*theta))` from `auxiliary-functions.ts`. -/
noncomputable def cPrime (e theta : ℝ) : ℝ :=
  -(Real.sin theta + e * Real.sin (2 * theta))

/-- `kSquared(elements) = (mu / h^1.5)^2` from `auxiliary-functions.ts`
(`Math.pow(h, 1.5)` is the real power `h ^ (1.5 : ℝ)`). -/
noncomputable def kSquared (elements : OrbitalElements) : ℝ :=
  let mu := elements.gravitationalParameter
  let h := elements.angularMomentum
  let k := mu / h ^ (1.5 : ℝ)
  k * k

/-- `J(elements, deltaTime) = kSquared(elements)*deltaTime` from `auxiliary-functions.ts`. -/
noncomputable def J (elements : OrbitalElements) (deltaTime : ℝ) : ℝ :=
  kSquared elements * deltaTime

/-! ## Frame conversions (`frames.ts`) -/

/-- `toInternalFromFrame` from `frames.ts`: RIC `[R, I, C]` is permuted to the
internal ordering `[I, C, R]`; LVLH is the identity. -/
def toInternalFromFrame (state : RelativeState) (from_ : Frame) : RelativeState :=
  match from_ with
  | Frame.RIC =>
      { position := ⟨state.position.y, state.position.z, state.position.x⟩
        velocity := ⟨state.velocity.y, state.velocity.z, state.velocity.x⟩ }
  | Frame.LVLH => state

/-- `fromInternalToFrame` from `frames.ts`: internal `[I, C, R]` is permuted to
RIC `[R, I, C]`; LVLH is the identity. -/
def fromInternalToFrame (state : RelativeState) (to_ : Frame) : RelativeState :=
  match to_ with
  | Frame.RIC =>
      { position := ⟨state.position.z, state.position.x, state.position.y⟩
        velocity := ⟨state.velocity.z, state.velocity.x, state.velocity.y⟩ }
  | Frame.LVLH => state

/-! ## True ↔ modified coordinate transforms (`coordinate-transforms.ts`) -/

/-- `toModifiedCoordinates` from `coordinate-transforms.ts`:
position is scaled by `rho`, velocity becomes
`-e*sin(theta)*position + velocity/(kSquared*rho)` componentwise. -/
noncomputable def toModifiedCoordinates (state : RelativeState)
    (elements : OrbitalElements) (theta : ℝ) : RelativeState :=
  let e := elements.eccentricity
  let rhoVal := rho e theta
  let k2 := kSquared elements
  let eSinTheta := e * Real.sin theta
  { position := ⟨rhoVal * state.position.x, rhoVal * state.position.y,
      rhoVal * state.position.z⟩
    velocity := ⟨-eSinTheta * state.position.x + state.velocity.x / (k2 * rhoVal),
      -eSinTheta * state.position.y + state.velocity.y / (k2 * rhoVal),
      -eSinTheta * state.position.z + state.velocity.z / (k2 * rhoVal)⟩ }

/-- `fromModifiedCoordinates` from `coordinate-transforms.ts`:
position is divided by `rho`, velocity is recovered as
`kSquared*(e*sin(theta)*position + rho*velocity)` componentwise. -/
noncomputable def fromModifiedCoordinates (modifiedState : RelativeState)
    (elements : OrbitalElements) (theta : ℝ) : RelativeState :=
  let e := elements.eccentricity
  let rhoVal := rho e theta
  let k2 := kSquared elements
  let eSinTheta := e * Real.sin theta
  { position := ⟨modifiedState.position.x / rhoVal, modifiedState.position.y / rhoVal,
      modifiedState.position.z / rhoVal⟩
    velocity := ⟨k2 * (eSinTheta * modifiedState.position.x + rhoVal * modifiedState.velocity.x),
      k2 * (eSinTheta * modifiedState.position.y + rhoVal * modifiedState.velocity.y),
      k2 * (eSinTheta * modifiedState.position.z + rhoVal * modifiedState.velocity.z)⟩ }

/-! ## In-plane state transition (`in-plane-stm.ts`) -/

/-- `computePseudoInitialInPlane` from `in-plane-stm.ts` (YA Eq. (82), built
from the inverse transformation matrix Eq. (80)). -/
noncomputable def computePseudoInitialInPlane (state : InPlaneState) (e theta0 : ℝ) :
    InPlaneState :=
  let rho0 := rho e theta0
  let s0 := s e theta0
  let c0 := c e theta0
  let factor := 1 / (1 - e * e)
  { x := factor *
      ((1 - e * e) * state.x +
        3 * e * (s0 / rho0) * (1 + 1 / rho0) * state.z +
        -(e * s0 * (1 + 1 / rho0)) * state.vx +
        (-(e * c0) + 2) * state.vz)
    z := factor *
      (-(3 * (s0 / rho0) * (1 + e * e / rho0)) * state.z +
        s0 * (1 + 1 / rho0) * state.vx +
        (c0 - 2 * e) * state.vz)
    vx := factor *
      (-(3 * (c0 / rho0 + e)) * state.z +
        (c0 * (1 + 1 / rho0) + e) * state.vx +
        -s0 * state.vz)
    vz := factor *
      ((3 * rho0 + e * e - 1) * state.z +
        -(rho0 * rho0) * state.vx +
        e * s0 * state.vz) }

/-- `propagateInPlane` from `in-plane-stm.ts` (YA Eq. (83)): forward in-plane
transition at true anomaly `theta` with secular term proportional to `JValue`. -/
noncomputable def propagateInPlane (pseudoInitial : InPlaneState) (e theta JValue : ℝ) :
    InPlaneState :=
  let rhoVal := rho e theta
  let sVal := s e theta
  let cVal := c e theta
  let sPrimeVal := sPrime e theta
  let cPrimeVal := cPrime e theta
  let oneOverRho := 1 / rhoVal
  { x := 1 * pseudoInitial.x +
      -cVal * (1 + oneOverRho) * pseudoInitial.z +
      sVal * (1 + oneOverRho) * pseudoInitial.vx +
      3 * rhoVal * rhoVal * JValue * pseudoInitial.vz
    z := 0 * pseudoInitial.x +
      sVal * pseudoInitial.z +
      cVal * pseudoInitial.vx +
      (2 - 3 * e * sVal * JValue) * pseudoInitial.vz
    vx := 0 * pseudoInitial.x +
      2 * sVal * pseudoInitial.z +
      (2 * cVal - e) * pseudoInitial.vx +
      3 * (1 - 2 * e * sVal * JValue) * pseudoInitial.vz
    vz := 0 * pseudoInitial.x +
      sPrimeVal * pseudoInitial.z +
      cPrimeVal * pseudoInitial.vx +
      -(3 * e) * (sPrimeVal * JValue + sVal / (rhoVal * rhoVal)) * pseudoInitial.vz }

/-! ## Out-of-plane state transition (`out-of-plane-stm.ts`) -/

/-- `propagateOutOfPlane` from `out-of-plane-stm.ts` (YA Eq. (84)): a rotation
by `theta - theta0` in the `(y, vy)` plane scaled by `1 / (rho(theta)/rho(theta0))`. -/
noncomputable def propagateOutOfPlane (initial : OutOfPlaneState) (e theta0 theta : ℝ) :
    OutOfPlaneState :=
  let rho0 := rho e theta0
  let rhoT := rho e theta
  let deltaTheta := theta - theta0
  let cosDelta := Real.cos deltaTheta
  let sinDelta := Real.sin deltaTheta
  let factor := 1 / (rhoT / rho0)
  { y := factor * (cosDelta * initial.y + sinDelta * initial.vy)
    vy := factor * (-sinDelta * initial.y + cosDelta * initial.vy) }

/-! ## Clohessy–Wiltshire propagation (`clohessy-wiltshire.ts`) -/

/-- `propagateHCW` from `clohessy-wiltshire.ts`: the closed-form circular-orbit
(Hill/Clohessy–Wiltshire) solution, applied in internal ordering between the
frame conversions. -/
noncomputable def propagateHCW (initialState : RelativeState) (orbitalRate deltaTime : ℝ)
    (frame : Frame) : RelativeState :=
  let internalInitial := toInternalFromFrame initialState frame
  let n := orbitalRate
  let dt := deltaTime
  let nt := n * dt
  let sinNt := Real.sin nt
  let cosNt := Real.cos nt
  let x0 := internalInitial.position.x
  let y0 := internalInitial.position.y
  let z0 := internalInitial.position.z
  let vx0 := internalInitial.velocity.x
  let vy0 := internalInitial.velocity.y
  let vz0 := internalInitial.velocity.z
  let x := x0 + 6 * (nt - sinNt) * z0 + (1 / n) * (4 * sinNt - 3 * nt) * vx0 +
    (2 / n) * (1 - cosNt) * vz0
  let z := (4 - 3 * cosNt) * z0 + (2 / n) * (cosNt - 1) * vx0 + (1 / n) * sinNt * vz0
  let vx := 6 * n * (1 - cosNt) * z0 + (4 * cosNt - 3) * vx0 + 2 * sinNt * vz0
  let vz := 3 * n * sinNt * z0 + -(2 * sinNt) * vx0 + cosNt * vz0
  let y := cosNt * y0 + (1 / n) * sinNt * vy0
  let vy := -(n * sinNt) * y0 + cosNt * vy0
  fromInternalToFrame ⟨⟨x, y, z⟩, ⟨vx, vy, vz⟩⟩ frame

/-! ## Yamanaka–Ankersen propagation (`yamanaka-ankersen.ts`) -/

/-- The body of `propagateYA` from `yamanaka-ankersen.ts` after its eccentricity
validation: frame → internal, modified coordinates at `theta0`, in-plane
pseudo-initial and transition to `thetaF` with `J = kSquared*deltaTime`,
out-of-plane transition, recombination, inverse modified transform at `thetaF`,
internal → frame. -/
noncomputable def propagateYACore (initialState : RelativeState) (elements : OrbitalElements)
    (theta0 thetaF deltaTime : ℝ) (frame : Frame) : RelativeState :=
  let e := elements.eccentricity
  let internalInitial := toInternalFromFrame initialState frame
  let modifiedInitial := toModifiedCoordinates internalInitial elements theta0
  let JValue := J elements deltaTime
  let inPlaneInitial : InPlaneState :=
    ⟨modifiedInitial.position.x, modifiedInitial.position.z,
      modifiedInitial.velocity.x, modifiedInitial.velocity.z⟩
  let pseudoInPlane := computePseudoInitialInPlane inPlaneInitial e theta0
  let finalInPlane := propagateInPlane pseudoInPlane e thetaF JValue
  let outOfPlaneInitial : OutOfPlaneState :=
    ⟨modifiedInitial.position.y, modifiedInitial.velocity.y⟩
  let finalOutOfPlane := propagateOutOfPlane outOfPlaneInitial e theta0 thetaF
  let modifiedFinal : RelativeState :=
    ⟨⟨finalInPlane.x, finalOutOfPlane.y, finalInPlane.z⟩,
      ⟨finalInPlane.vx, finalOutOfPlane.vy, finalInPlane.vz⟩⟩
  let finalTrueInternal := fromModifiedCoordinates modifiedFinal elements thetaF
  fromInternalToFrame finalTrueInternal frame

open Classical in
/-- `propagateYA` from `yamanaka-ankersen.ts`: throws
"Eccentricity must be in range [0, 1), got {e}" when `e < 0 || e >= 1`,
otherwise runs the propagation pipeline `propagateYACore`. -/
noncomputable def propagateYA (initialState : RelativeState) (elements : OrbitalElements)
    (theta0 thetaF deltaTime : ℝ) (frame : Frame) :
    Except PropagationError RelativeState :=
  if elements.eccentricity < 0 ∨ 1 ≤ elements.eccentricity then
    Except.error PropagationError.invalidEccentricity
  else
    Except.ok (propagateYACore initialState elements theta0 thetaF deltaTime frame)

/-! ## Kepler utilities (`kepler-utils.ts`) -/

/-- One Newton–Raphson update for Kepler's equation `E - e*sin E = M`,
as computed inside the loop of `trueAnomalyFromMean` in `kepler-utils.ts`:
`E - (E - e*sin E - M) / (1 - e*cos E)`. -/
noncomputable def newtonStep (eccentricity meanAnomaly E : ℝ) : ℝ :=
  E - (E - eccentricity * Real.sin E - meanAnomaly) / (1 - eccentricity * Real.cos E)

open Classical in
/-- The bounded Newton loop of `trueAnomalyFromMean` in `kepler-utils.ts`:
up to `fuel` updates, stopping after any update whose magnitude `|deltaE|`
falls below `tolerance` (the source runs it with `fuel = 100`). -/
noncomputable def keplerLoop (eccentricity meanAnomaly tolerance : ℝ) :
    ℕ → ℝ → ℝ
  | 0, E => E
  | fuel + 1, E =>
      let E2 := newtonStep eccentricity meanAnomaly E
      if |E - E2| < tolerance then E2
      else keplerLoop eccentricity meanAnomaly tolerance fuel E2

/-- The final conversion of `trueAnomalyFromMean` in `kepler-utils.ts`:
`theta = 2*atan(sqrt((1+e)/(1-e))*tan(E/2))`. -/
noncomputable def eccentricToTrue (eccentricity E : ℝ) : ℝ :=
  2 * Real.arctan (Real.sqrt ((1 + eccentricity) / (1 - eccentricity)) * Real.tan (E / 2))

/-- `trueAnomalyFromMean` from `kepler-utils.ts`: Newton solve of Kepler's
equation starting from `E = meanAnomaly`, at most 100 iterations, followed by
the eccentric→true anomaly conversion.  The source's default tolerance is
`1e-10`; here the tolerance is always passed explicitly. -/
noncomputable def trueAnomalyFromMean (meanAnomaly eccentricity tolerance : ℝ) : ℝ :=
  eccentricToTrue eccentricity (keplerLoop eccentricity meanAnomaly tolerance 100 meanAnomaly)

open Classical in
/-- `deriveAngularMomentum` from `kepler-utils.ts`: validates `e ∈ [0, 1)`
("eccentricity must be in [0,1).") then `meanMotionRevPerDay > 0`
("meanMotionRevPerDay must be > 0."), then returns
`sqrt(mu * a * (1 - e^2))` with `a = cbrt(mu / n^2)`,
`n = meanMotionRevPerDay * 2π / 86400`. -/
noncomputable def deriveAngularMomentum (eccentricity meanMotionRevPerDay mu : ℝ) :
    Except PropagationError ℝ :=
  if ¬(0 ≤ eccentricity ∧ eccentricity < 1) then
    Except.error PropagationError.invalidEccentricity
  else if ¬(0 < meanMotionRevPerDay) then
    Except.error PropagationError.invalidMeanMotion
  else
    let nRadPerSec := meanMotionRevPerDay * 2 * Real.pi / 86400
    let a := (mu / (nRadPerSec * nRadPerSec)) ^ ((1 : ℝ) / 3)
    Except.ok (Real.sqrt (mu * a * (1 - eccentricity * eccentricity)))

/-! ## Basic positivity facts -/

/-- For `e ∈ [0, 1)` the radius factor `rho = 1 + e*cos θ` is positive. -/
lemma rho_pos (e theta : ℝ) (he0 : 0 ≤ e) (he1 : e < 1) : 0 < rho e theta := by
  unfold rho
  have h1 : e * (-1) ≤ e * Real.cos theta :=
    mul_le_mul_of_nonneg_left (Real.neg_one_le_cos theta) he0
  linarith

lemma rho_ne_zero (e theta : ℝ) (he0 : 0 ≤ e) (he1 : e < 1) : rho e theta ≠ 0 :=
  ne_of_gt (rho_pos e theta he0 he1)

/-- With positive `h` and `mu`, `kSquared` is positive. -/
lemma kSquared_pos (elements : OrbitalElements) (hh : 0 < elements.angularMomentum)
    (hmu : 0 < elements.gravitationalParameter) : 0 < kSquared elements := by
  unfold kSquared
  have hp : (0 : ℝ) < elements.angularMomentum ^ (1.5 : ℝ) :=
    Real.rpow_pos_of_pos hh _
  have : 0 < elements.gravitationalParameter / elements.angularMomentum ^ (1.5 : ℝ) :=
    div_pos hmu hp
  exact mul_pos this this

lemma kSquared_ne_zero (elements : OrbitalElements) (hh : 0 < elements.angularMomentum)
    (hmu : 0 < elements.gravitationalParameter) : kSquared elements ≠ 0 :=
  ne_of_gt (kSquared_pos elements hh hmu)

/-! ## Claim C5: frame conversions are exact mutually inverse permutations -/

/-- C5: for every relative state and both frame tags, `fromInternalToFrame`
after `toInternalFromFrame` is the identity and so is the composition in the
other order, bit-exactly (pure permutation, no arithmetic). -/
theorem frame_conversion_exact_inverse (st : RelativeState) (f : Frame) :
    fromInternalToFrame (toInternalFromFrame st f) f = st ∧
    toInternalFromFrame (fromInternalToFrame st f) f = st := by
  cases f <;> exact ⟨rfl, rfl⟩

/-! ## Claim C10: range of `trueAnomalyFromMean` -/

/-- C10: the value returned by `trueAnomalyFromMean` always lies in the open
interval `(-π, π)`, because the final conversion is `2 * arctan(...)` and
`arctan` takes values in `(-π/2, π/2)`. -/
theorem trueAnomalyFromMean_range (meanAnomaly eccentricity tolerance : ℝ) :
    -Real.pi < trueAnomalyFromMean meanAnomaly eccentricity tolerance ∧
    trueAnomalyFromMean meanAnomaly eccentricity tolerance < Real.pi := by
  unfold trueAnomalyFromMean eccentricToTrue
  constructor
  · have h := Real.neg_pi_div_two_lt_arctan
      (Real.sqrt ((1 + eccentricity) / (1 - eccentricity)) *
        Real.tan (keplerLoop eccentricity meanAnomaly tolerance 100 meanAnomaly / 2))
    linarith
  · have h := Real.arctan_lt_pi_div_two
      (Real.sqrt ((1 + eccentricity) / (1 - eccentricity)) *
        Real.tan (keplerLoop eccentricity meanAnomaly tolerance 100 meanAnomaly / 2))
    linarith

/-! ## Claim C2: the true ↔ modified coordinate transforms are exact inverses -/

/-- The true → modified → true round trip, assuming only the needed
non-vanishing facts. -/
lemma fromModified_toModified (st : RelativeState) (elements : OrbitalElements)
    (theta : ℝ) (hrho : rho elements.eccentricity theta ≠ 0)
    (hk2 : kSquared elements ≠ 0) :
    fromModifiedCoordinates (toModifiedCoordinates st elements theta) elements theta = st := by
  unfold fromModifiedCoordinates toModifiedCoordinates
  ext <;> (simp only; field_simp; try ring)

/-- C2: for eccentricity in `[0, 1)` and positive `h`, `mu`, transforming a
state to modified coordinates and back is the identity. -/
theorem modified_coordinates_roundtrip (st : RelativeState) (elements : OrbitalElements)
    (theta : ℝ) (he0 : 0 ≤ elements.eccentricity) (he1 : elements.eccentricity < 1)
    (hh : 0 < elements.angularMomentum) (hmu : 0 < elements.gravitationalParameter) :
    fromModifiedCoordinates (toModifiedCoordinates st elements theta) elements theta = st :=
  fromModified_toModified st elements theta
    (rho_ne_zero elements.eccentricity theta he0 he1) (kSquared_ne_zero elements hh hmu)

/-- Witness for C2 at a concrete input. -/
theorem modified_coordinates_roundtrip_witness :
    (0 : ℝ) ≤ 0 ∧ (0 : ℝ) < 1 ∧ (0 : ℝ) < 1 ∧
    fromModifiedCoordinates
        (toModifiedCoordinates ⟨⟨1, 2, 3⟩, ⟨4, 5, 6⟩⟩ ⟨0, 1, 1⟩ 0) ⟨0, 1, 1⟩ 0 =
      (⟨⟨1, 2, 3⟩, ⟨4, 5, 6⟩⟩ : RelativeState) :=
  ⟨le_refl 0, by norm_num, by norm_num,
    modified_coordinates_roundtrip ⟨⟨1, 2, 3⟩, ⟨4, 5, 6⟩⟩ ⟨0, 1, 1⟩ 0
      (le_refl 0) (by norm_num) (by norm_num) (by norm_num)⟩

/-- The reverse round trip (modified → true → modified), used when composing
the backward propagation with the forward one. -/
lemma toModified_fromModified (st : RelativeState) (elements : OrbitalElements)
    (theta : ℝ) (hrho : rho elements.eccentricity theta ≠ 0)
    (hk2 : kSquared elements ≠ 0) :
    toModifiedCoordinates (fromModifiedCoordinates st elements theta) elements theta = st := by
  unfold fromModifiedCoordinates toModifiedCoordinates
  ext <;> (simp only; field_simp; try ring)

/-! ## Out-of-plane invertibility -/

/-- Applying the out-of-plane transition from `theta` back to `theta0` undoes
the transition from `theta0` to `theta`: the scale factors are reciprocal and
the rotations are inverse. -/
lemma propagateOutOfPlane_inverse (st : OutOfPlaneState) (e theta0 theta : ℝ)
    (h0 : rho e theta0 ≠ 0) (hT : rho e theta ≠ 0) :
    propagateOutOfPlane (propagateOutOfPlane st e theta0 theta) e theta theta0 = st := by
  have hp := Real.sin_sq_add_cos_sq (theta - theta0)
  have hrw : theta0 - theta = -(theta - theta0) := by ring
  unfold propagateOutOfPlane
  ext
  all_goals simp only [hrw, Real.cos_neg, Real.sin_neg]
  all_goals field_simp
  · linear_combination rho e theta * rho e theta0 * st.y * hp
  · linear_combination rho e theta * rho e theta0 * st.vy * hp

/-- C4: the out-of-plane transition is self-inverse under swapping the
anomalies, for every eccentricity in `[0, 1)` and all anomalies. -/
theorem outOfPlane_self_inverse (st : OutOfPlaneState) (e theta0 theta : ℝ)
    (he0 : 0 ≤ e) (he1 : e < 1) :
    propagateOutOfPlane (propagateOutOfPlane st e theta0 theta) e theta theta0 = st :=
  propagateOutOfPlane_inverse st e theta0 theta
    (rho_ne_zero e theta0 he0 he1) (rho_ne_zero e theta he0 he1)

/-- Witness for C4 at a concrete input. -/
theorem outOfPlane_self_inverse_witness :
    (0 : ℝ) ≤ 1 / 2 ∧ (1 : ℝ) / 2 < 1 ∧
    propagateOutOfPlane (propagateOutOfPlane ⟨1, 2⟩ (1 / 2) 0 1) (1 / 2) 1 0 =
      (⟨1, 2⟩ : OutOfPlaneState) :=
  ⟨by norm_num, by norm_num,
    outOfPlane_self_inverse ⟨1, 2⟩ (1 / 2) 0 1 (by norm_num) (by norm_num)⟩

/-! ## In-plane transition: structural lemmas

The YA in-plane solution has the form `state(θ) = Φ(θ, J) · λ` with
`computePseudoInitialInPlane` the inverse of `Φ(θ, 0)`; the secular term
enters only through `J` times the constant direction `(3, -3e, 0, 0)` in
pseudo-initial space.  The three lemmas below capture this. -/

set_option maxHeartbeats 2000000 in
/-- `propagateInPlane` at the same anomaly with `J = 0` inverts
`computePseudoInitialInPlane`. -/
lemma inPlane_pseudo_then_prop (p : InPlaneState) (e theta : ℝ)
    (he : 1 - e * e ≠ 0) (hr : rho e theta ≠ 0) :
    propagateInPlane (computePseudoInitialInPlane p e theta) e theta 0 = p := by
  have hp := Real.sin_sq_add_cos_sq theta
  unfold rho at hr
  unfold propagateInPlane computePseudoInitialInPlane sPrime cPrime s c rho
  ext
  all_goals simp only [Real.cos_two_mul, Real.sin_two_mul]
  all_goals field_simp
  · linear_combination (-(2 : ℝ) * (p.vz) + (4 : ℝ) * e ^ 2 * (p.vz) - (2 : ℝ) * e ^ 4 * (p.vz) - (15 : ℝ) * (Real.cos theta) * e * (p.vz) + (30 : ℝ) * (Real.cos theta) * e ^ 3 * (p.vz) - (15 : ℝ) * (Real.cos theta) * e ^ 5 * (p.vz) - (49 : ℝ) * (Real.cos theta) ^ 2 * e ^ 2 * (p.vz) + (98 : ℝ) * (Real.cos theta) ^ 2 * e ^ 4 * (p.vz) - (49 : ℝ) * (Real.cos theta) ^ 2 * e ^ 6 * (p.vz) - (91 : ℝ) * (Real.cos theta) ^ 3 * e ^ 3 * (p.vz) + (182 : ℝ) * (Real.cos theta) ^ 3 * e ^ 5 * (p.vz) - (91 : ℝ) * (Real.cos theta) ^ 3 * e ^ 7 * (p.vz) - (105 : ℝ) * (Real.cos theta) ^ 4 * e ^ 4 * (p.vz) + (210 : ℝ) * (Real.cos theta) ^ 4 * e ^ 6 * (p.vz) - (105 : ℝ) * (Real.cos theta) ^ 4 * e ^ 8 * (p.vz) - (77 : ℝ) * (Real.cos theta) ^ 5 * e ^ 5 * (p.vz) + (154 : ℝ) * (Real.cos theta) ^ 5 * e ^ 7 * (p.vz) - (77 : ℝ) * (Real.cos theta) ^ 5 * e ^ 9 * (p.vz) - (35 : ℝ) * (Real.cos theta) ^ 6 * e ^ 6 * (p.vz) + (70 : ℝ) * (Real.cos theta) ^ 6 * e ^ 8 * (p.vz) - (35 : ℝ) * (Real.cos theta) ^ 6 * e ^ 10 * (p.vz) - (9 : ℝ) * (Real.cos theta) ^ 7 * e ^ 7 * (p.vz) + (18 : ℝ) * (Real.cos theta) ^ 7 * e ^ 9 * (p.vz) - (9 : ℝ) * (Real.cos theta) ^ 7 * e ^ 11 * (p.vz) - (1 : ℝ) * (Real.cos theta) ^ 8 * e ^ 8 * (p.vz) + (2 : ℝ) * (Real.cos theta) ^ 8 * e ^ 10 * (p.vz) - (1 : ℝ) * (Real.cos theta) ^ 8 * e ^ 12 * (p.vz)) * hp
  · linear_combination ((2 : ℝ) * (p.vx) - (3 : ℝ) * (p.z) - (4 : ℝ) * e ^ 2 * (p.vx) + (3 : ℝ) * e ^ 2 * (p.z) + (2 : ℝ) * e ^ 4 * (p.vx) + (3 : ℝ) * e ^ 4 * (p.z) - (3 : ℝ) * e ^ 6 * (p.z) + (9 : ℝ) * (Real.cos theta) * e * (p.vx) - (12 : ℝ) * (Real.cos theta) * e * (p.z) - (18 : ℝ) * (Real.cos theta) * e ^ 3 * (p.vx) + (15 : ℝ) * (Real.cos theta) * e ^ 3 * (p.z) + (9 : ℝ) * (Real.cos theta) * e ^ 5 * (p.vx) + (6 : ℝ) * (Real.cos theta) * e ^ 5 * (p.z) - (9 : ℝ) * (Real.cos theta) * e ^ 7 * (p.z) + (16 : ℝ) * (Real.cos theta) ^ 2 * e ^ 2 * (p.vx) - (18 : ℝ) * (Real.cos theta) ^ 2 * e ^ 2 * (p.z) - (32 : ℝ) * (Real.cos theta) ^ 2 * e ^ 4 * (p.vx) + (27 : ℝ) * (Real.cos theta) ^ 2 * e ^ 4 * (p.z) + (16 : ℝ) * (Real.cos theta) ^ 2 * e ^ 6 * (p.vx) - (9 : ℝ) * (Real.cos theta) ^ 2 * e ^ 8 * (p.z) + (14 : ℝ) * (Real.cos theta) ^ 3 * e ^ 3 * (p.vx) - (12 : ℝ) * (Real.cos theta) ^ 3 * e ^ 3 * (p.z) - (28 : ℝ) * (Real.cos theta) ^ 3 * e ^ 5 * (p.vx) + (21 : ℝ) * (Real.cos theta) ^ 3 * e ^ 5 * (p.z) + (14 : ℝ) * (Real.cos theta) ^ 3 * e ^ 7 * (p.vx) - (6 : ℝ) * (Real.cos theta) ^ 3 * e ^ 7 * (p.z) - (3 : ℝ) * (Real.cos theta) ^ 3 * e ^ 9 * (p.z) + (6 : ℝ) * (Real.cos theta) ^ 4 * e ^ 4 * (p.vx) - (3 : ℝ) * (Real.cos theta) ^ 4 * e ^ 4 * (p.z) - (12 : ℝ) * (Real.cos theta) ^ 4 * e ^ 6 * (p.vx) + (6 : ℝ) * (Real.cos theta) ^ 4 * e ^ 6 * (p.z) + (6 : ℝ) * (Real.cos theta) ^ 4 * e ^ 8 * (p.vx) - (3 : ℝ) * (Real.cos theta) ^ 4 * e ^ 8 * (p.z) + (1 : ℝ) * (Real.cos theta) ^ 5 * e ^ 5 * (p.vx) - (2 : ℝ) * (Real.cos theta) ^ 5 * e ^ 7 * (p.vx) + (1 : ℝ) * (Real.cos theta) ^ 5 * e ^ 9 * (p.vx)) * hp
  · linear_combination ((4 : ℝ) * (p.vx) - (6 : ℝ) * (p.z) - (8 : ℝ) * e ^ 2 * (p.vx) + (6 : ℝ) * e ^ 2 * (p.z) + (4 : ℝ) * e ^ 4 * (p.vx) + (6 : ℝ) * e ^ 4 * (p.z) - (6 : ℝ) * e ^ 6 * (p.z) + (18 : ℝ) * (Real.cos theta) * e * (p.vx) - (24 : ℝ) * (Real.cos theta) * e * (p.z) - (36 : ℝ) * (Real.cos theta) * e ^ 3 * (p.vx) + (30 : ℝ) * (Real.cos theta) * e ^ 3 * (p.z) + (18 : ℝ) * (Real.cos theta) * e ^ 5 * (p.vx) + (12 : ℝ) * (Real.cos theta) * e ^ 5 * (p.z) - (18 : ℝ) * (Real.cos theta) * e ^ 7 * (p.z) + (32 : ℝ) * (Real.cos theta) ^ 2 * e ^ 2 * (p.vx) - (36 : ℝ) * (Real.cos theta) ^ 2 * e ^ 2 * (p.z) - (64 : ℝ) * (Real.cos theta) ^ 2 * e ^ 4 * (p.vx) + (54 : ℝ) * (Real.cos theta) ^ 2 * e ^ 4 * (p.z) + (32 : ℝ) * (Real.cos theta) ^ 2 * e ^ 6 * (p.vx) - (18 : ℝ) * (Real.cos theta) ^ 2 * e ^ 8 * (p.z) + (28 : ℝ) * (Real.cos theta) ^ 3 * e ^ 3 * (p.vx) - (24 : ℝ) * (Real.cos theta) ^ 3 * e ^ 3 * (p.z) - (56 : ℝ) * (Real.cos theta) ^ 3 * e ^ 5 * (p.vx) + (42 : ℝ) * (Real.cos theta) ^ 3 * e ^ 5 * (p.z) + (28 : ℝ) * (Real.cos theta) ^ 3 * e ^ 7 * (p.vx) - (12 : ℝ) * (Real.cos theta) ^ 3 * e ^ 7 * (p.z) - (6 : ℝ) * (Real.cos theta) ^ 3 * e ^ 9 * (p.z) + (12 : ℝ) * (Real.cos theta) ^ 4 * e ^ 4 * (p.vx) - (6 : ℝ) * (Real.cos theta) ^ 4 * e ^ 4 * (p.z) - (24 : ℝ) * (Real.cos theta) ^ 4 * e ^ 6 * (p.vx) + (12 : ℝ) * (Real.cos theta) ^ 4 * e ^ 6 * (p.z) + (12 : ℝ) * (Real.cos theta) ^ 4 * e ^ 8 * (p.vx) - (6 : ℝ) * (Real.cos theta) ^ 4 * e ^ 8 * (p.z) + (2 : ℝ) * (Real.cos theta) ^ 5 * e ^ 5 * (p.vx) - (4 : ℝ) * (Real.cos theta) ^ 5 * e ^ 7 * (p.vx) + (2 : ℝ) * (Real.cos theta) ^ 5 * e ^ 9 * (p.vx)) * hp
  · linear_combination ((1 : ℝ) * (p.vz) - (5 : ℝ) * e ^ 2 * (p.vz) + (7 : ℝ) * e ^ 4 * (p.vz) - (3 : ℝ) * e ^ 6 * (p.vz) + (8 : ℝ) * (Real.cos theta) * e * (p.vz) - (31 : ℝ) * (Real.cos theta) * e ^ 3 * (p.vz) + (38 : ℝ) * (Real.cos theta) * e ^ 5 * (p.vz) - (15 : ℝ) * (Real.cos theta) * e ^ 7 * (p.vz) + (27 : ℝ) * (Real.cos theta) ^ 2 * e ^ 2 * (p.vz) - (84 : ℝ) * (Real.cos theta) ^ 2 * e ^ 4 * (p.vz) + (87 : ℝ) * (Real.cos theta) ^ 2 * e ^ 6 * (p.vz) - (30 : ℝ) * (Real.cos theta) ^ 2 * e ^ 8 * (p.vz) + (50 : ℝ) * (Real.cos theta) ^ 3 * e ^ 3 * (p.vz) - (130 : ℝ) * (Real.cos theta) ^ 3 * e ^ 5 * (p.vz) + (110 : ℝ) * (Real.cos theta) ^ 3 * e ^ 7 * (p.vz) - (30 : ℝ) * (Real.cos theta) ^ 3 * e ^ 9 * (p.vz) + (55 : ℝ) * (Real.cos theta) ^ 4 * e ^ 4 * (p.vz) - (125 : ℝ) * (Real.cos theta) ^ 4 * e ^ 6 * (p.vz) + (85 : ℝ) * (Real.cos theta) ^ 4 * e ^ 8 * (p.vz) - (15 : ℝ) * (Real.cos theta) ^ 4 * e ^ 10 * (p.vz) + (36 : ℝ) * (Real.cos theta) ^ 5 * e ^ 5 * (p.vz) - (75 : ℝ) * (Real.cos theta) ^ 5 * e ^ 7 * (p.vz) + (42 : ℝ) * (Real.cos theta) ^ 5 * e ^ 9 * (p.vz) - (3 : ℝ) * (Real.cos theta) ^ 5 * e ^ 11 * (p.vz) + (13 : ℝ) * (Real.cos theta) ^ 6 * e ^ 6 * (p.vz) - (26 : ℝ) * (Real.cos theta) ^ 6 * e ^ 8 * (p.vz) + (13 : ℝ) * (Real.cos theta) ^ 6 * e ^ 10 * (p.vz) + (2 : ℝ) * (Real.cos theta) ^ 7 * e ^ 7 * (p.vz) - (4 : ℝ) * (Real.cos theta) ^ 7 * e ^ 9 * (p.vz) + (2 : ℝ) * (Real.cos theta) ^ 7 * e ^ 11 * (p.vz)) * hp

set_option maxHeartbeats 2000000 in
/-- `computePseudoInitialInPlane` applied after `propagateInPlane` at the same
anomaly shifts the pseudo-initial state by `J * vz` times `(3, -3e, 0, 0)`. -/
lemma inPlane_prop_then_pseudo (p : InPlaneState) (e theta JValue : ℝ)
    (he : 1 - e * e ≠ 0) (hr : rho e theta ≠ 0) :
    computePseudoInitialInPlane (propagateInPlane p e theta JValue) e theta =
      ⟨p.x + 3 * JValue * p.vz, p.z - 3 * e * JValue * p.vz, p.vx, p.vz⟩ := by
  have hp := Real.sin_sq_add_cos_sq theta
  unfold rho at hr
  unfold computePseudoInitialInPlane propagateInPlane sPrime cPrime s c rho
  ext
  all_goals simp only [Real.cos_two_mul, Real.sin_two_mul]
  all_goals field_simp
  · linear_combination ((2 : ℝ) * e * (p.z) - (6 : ℝ) * e ^ 2 * (p.vz) * JValue + (3 : ℝ) * (Real.cos theta) * e ^ 2 * (p.z) - (9 : ℝ) * (Real.cos theta) * e ^ 3 * (p.vz) * JValue - (5 : ℝ) * (Real.cos theta) ^ 2 * e ^ 3 * (p.z) + (15 : ℝ) * (Real.cos theta) ^ 2 * e ^ 4 * (p.vz) * JValue - (13 : ℝ) * (Real.cos theta) ^ 3 * e ^ 4 * (p.z) + (39 : ℝ) * (Real.cos theta) ^ 3 * e ^ 5 * (p.vz) * JValue - (9 : ℝ) * (Real.cos theta) ^ 4 * e ^ 5 * (p.z) + (27 : ℝ) * (Real.cos theta) ^ 4 * e ^ 6 * (p.vz) * JValue - (2 : ℝ) * (Real.cos theta) ^ 5 * e ^ 6 * (p.z) + (6 : ℝ) * (Real.cos theta) ^ 5 * e ^ 7 * (p.vz) * JValue) * hp
  · linear_combination ((1 : ℝ) * (p.z) - (3 : ℝ) * e * (p.vz) * JValue - (3 : ℝ) * e ^ 2 * (p.z) + (9 : ℝ) * e ^ 3 * (p.vz) * JValue + (5 : ℝ) * (Real.cos theta) * e * (p.z) - (15 : ℝ) * (Real.cos theta) * e ^ 2 * (p.vz) * JValue - (6 : ℝ) * (Real.cos theta) * e ^ 3 * (p.z) + (18 : ℝ) * (Real.cos theta) * e ^ 4 * (p.vz) * JValue + (9 : ℝ) * (Real.cos theta) ^ 2 * e ^ 2 * (p.z) - (27 : ℝ) * (Real.cos theta) ^ 2 * e ^ 3 * (p.vz) * JValue - (3 : ℝ) * (Real.cos theta) ^ 2 * e ^ 4 * (p.z) + (9 : ℝ) * (Real.cos theta) ^ 2 * e ^ 5 * (p.vz) * JValue + (7 : ℝ) * (Real.cos theta) ^ 3 * e ^ 3 * (p.z) - (21 : ℝ) * (Real.cos theta) ^ 3 * e ^ 4 * (p.vz) * JValue + (2 : ℝ) * (Real.cos theta) ^ 4 * e ^ 4 * (p.z) - (6 : ℝ) * (Real.cos theta) ^ 4 * e ^ 5 * (p.vz) * JValue) * hp
  · linear_combination ((1 : ℝ) * (p.vx) + (3 : ℝ) * e * (p.vz) + (6 : ℝ) * (Real.cos theta) * e * (p.vx) + (9 : ℝ) * (Real.cos theta) * e ^ 2 * (p.vz) + (14 : ℝ) * (Real.cos theta) ^ 2 * e ^ 2 * (p.vx) + (9 : ℝ) * (Real.cos theta) ^ 2 * e ^ 3 * (p.vz) + (16 : ℝ) * (Real.cos theta) ^ 3 * e ^ 3 * (p.vx) + (3 : ℝ) * (Real.cos theta) ^ 3 * e ^ 4 * (p.vz) + (9 : ℝ) * (Real.cos theta) ^ 4 * e ^ 4 * (p.vx) + (2 : ℝ) * (Real.cos theta) ^ 5 * e ^ 5 * (p.vx)) * hp
  · linear_combination (-(1 : ℝ) * e * (p.vx) - (3 : ℝ) * e ^ 2 * (p.vz) - (5 : ℝ) * (Real.cos theta) * e ^ 2 * (p.vx) - (6 : ℝ) * (Real.cos theta) * e ^ 3 * (p.vz) - (9 : ℝ) * (Real.cos theta) ^ 2 * e ^ 3 * (p.vx) - (3 : ℝ) * (Real.cos theta) ^ 2 * e ^ 4 * (p.vz) - (7 : ℝ) * (Real.cos theta) ^ 3 * e ^ 4 * (p.vx) - (2 : ℝ) * (Real.cos theta) ^ 4 * e ^ 5 * (p.vx)) * hp

set_option maxHeartbeats 2000000 in
/-- Propagating the `J`-shifted pseudo-initial state with `-J` equals
propagating the original one with `J = 0`. -/
lemma inPlane_prop_shift (p : InPlaneState) (e theta JValue : ℝ)
    (hr : rho e theta ≠ 0) :
    propagateInPlane ⟨p.x + 3 * JValue * p.vz, p.z - 3 * e * JValue * p.vz, p.vx, p.vz⟩
      e theta (-JValue) = propagateInPlane p e theta 0 := by
  unfold rho at hr
  unfold propagateInPlane sPrime cPrime s c rho
  ext
  all_goals
    simp only [Real.cos_two_mul, Real.sin_two_mul]
    field_simp
    try ring

/-! ## Forward/backward consistency of the full pipeline -/

lemma toInternal_fromInternal (st : RelativeState) (f : Frame) :
    toInternalFromFrame (fromInternalToFrame st f) f = st := by
  cases f <;> rfl

lemma fromInternal_toInternal (st : RelativeState) (f : Frame) :
    fromInternalToFrame (toInternalFromFrame st f) f = st := by
  cases f <;> rfl

lemma inPlaneState_eta (q : InPlaneState) : (⟨q.x, q.z, q.vx, q.vz⟩ : InPlaneState) = q :=
  rfl

lemma outOfPlaneState_eta (q : OutOfPlaneState) : (⟨q.y, q.vy⟩ : OutOfPlaneState) = q :=
  rfl

lemma vector3_eta (v : Vector3) : (⟨v.x, v.y, v.z⟩ : Vector3) = v :=
  rfl

lemma relativeState_eta (st : RelativeState) :
    (⟨st.position, st.velocity⟩ : RelativeState) = st :=
  rfl

/-- The composed in-plane map — forward from `theta0` to `thetaF` with `J`,
then backward from `thetaF` to `theta0` with `-J` — is the identity. -/
lemma inPlane_forward_backward (p : InPlaneState) (e theta0 thetaF Jv : ℝ)
    (he : 1 - e * e ≠ 0) (hr0 : rho e theta0 ≠ 0) (hrF : rho e thetaF ≠ 0) :
    propagateInPlane
      (computePseudoInitialInPlane
        (propagateInPlane (computePseudoInitialInPlane p e theta0) e thetaF Jv) e thetaF)
      e theta0 (-Jv) = p := by
  rw [inPlane_prop_then_pseudo _ e thetaF Jv he hrF,
    inPlane_prop_shift (computePseudoInitialInPlane p e theta0) e theta0 Jv hr0,
    inPlane_pseudo_then_prop p e theta0 he hr0]

/-- The post-validation YA pipeline composed with itself backwards (swapped
anomalies, negated time step) is the identity. -/
lemma propagateYACore_inverse (st : RelativeState) (elements : OrbitalElements)
    (theta0 thetaF deltaTime : ℝ) (frame : Frame)
    (he0 : 0 ≤ elements.eccentricity) (he1 : elements.eccentricity < 1)
    (hh : 0 < elements.angularMomentum) (hmu : 0 < elements.gravitationalParameter) :
    propagateYACore (propagateYACore st elements theta0 thetaF deltaTime frame)
      elements thetaF theta0 (-deltaTime) frame = st := by
  have hr0 := rho_ne_zero elements.eccentricity theta0 he0 he1
  have hrF := rho_ne_zero elements.eccentricity thetaF he0 he1
  have hk2 := kSquared_ne_zero elements hh hmu
  have hee : 1 - elements.eccentricity * elements.eccentricity ≠ 0 := by nlinarith
  have hJneg : J elements (-deltaTime) = -(J elements deltaTime) := by
    unfold J; ring
  have h1 : ∀ Y : RelativeState,
      toInternalFromFrame (fromInternalToFrame Y frame) frame = Y :=
    fun Y => toInternal_fromInternal Y frame
  have h2 : ∀ Y : RelativeState,
      toModifiedCoordinates (fromModifiedCoordinates Y elements thetaF) elements thetaF = Y :=
    fun Y => toModified_fromModified Y elements thetaF hrF hk2
  have h3 : ∀ Y : RelativeState,
      fromModifiedCoordinates (toModifiedCoordinates Y elements theta0) elements theta0 = Y :=
    fun Y => fromModified_toModified Y elements theta0 hr0 hk2
  have h4 : ∀ q : InPlaneState,
      propagateInPlane
        (computePseudoInitialInPlane
          (propagateInPlane (computePseudoInitialInPlane q elements.eccentricity theta0)
            elements.eccentricity thetaF (J elements deltaTime))
          elements.eccentricity thetaF)
        elements.eccentricity theta0 (-(J elements deltaTime)) = q :=
    fun q => inPlane_forward_backward q elements.eccentricity theta0 thetaF
      (J elements deltaTime) hee hr0 hrF
  have h5 : ∀ q : OutOfPlaneState,
      propagateOutOfPlane (propagateOutOfPlane q elements.eccentricity theta0 thetaF)
        elements.eccentricity thetaF theta0 = q :=
    fun q => propagateOutOfPlane_inverse q elements.eccentricity theta0 thetaF hr0 hrF
  have h6 : ∀ Y : RelativeState,
      fromInternalToFrame (toInternalFromFrame Y frame) frame = Y :=
    fun Y => fromInternal_toInternal Y frame
  simp only [propagateYACore, hJneg, h1, h2, inPlaneState_eta, outOfPlaneState_eta,
    h4, h5, vector3_eta, relativeState_eta, h3, h6]

/-- C3: propagating forward with `propagateYA` and then backward (anomalies
swapped, time step negated) returns the initial state, for every state,
elements with `e ∈ [0, 1)` (and positive `h`, `mu`), anomalies, time, and
frame tag.  The first conjunct records that the forward call succeeds with
value `propagateYACore ...`; the second that the backward call applied to that
value returns the initial state. -/
theorem propagateYA_forward_backward (st : RelativeState) (elements : OrbitalElements)
    (theta0 thetaF deltaTime : ℝ) (frame : Frame)
    (he0 : 0 ≤ elements.eccentricity) (he1 : elements.eccentricity < 1)
    (hh : 0 < elements.angularMomentum) (hmu : 0 < elements.gravitationalParameter) :
    propagateYA st elements theta0 thetaF deltaTime frame =
      Except.ok (propagateYACore st elements theta0 thetaF deltaTime frame) ∧
    propagateYA (propagateYACore st elements theta0 thetaF deltaTime frame)
      elements thetaF theta0 (-deltaTime) frame = Except.ok st := by
  have hcond : ¬(elements.eccentricity < 0 ∨ 1 ≤ elements.eccentricity) := by
    rintro (h | h) <;> linarith
  refine ⟨?_, ?_⟩
  · unfold propagateYA
    rw [if_neg hcond]
  · unfold propagateYA
    rw [if_neg hcond]
    exact congrArg Except.ok (propagateYACore_inverse st elements theta0 thetaF deltaTime
      frame he0 he1 hh hmu)

/-- Witness for C3 at a concrete input. -/
theorem propagateYA_forward_backward_witness :
    (0 : ℝ) ≤ 0 ∧ (0 : ℝ) < 1 ∧ (0 : ℝ) < 1 ∧
    (propagateYA ⟨⟨1, 2, 3⟩, ⟨4, 5, 6⟩⟩ ⟨0, 1, 1⟩ 0 0 0 Frame.RIC =
        Except.ok (propagateYACore ⟨⟨1, 2, 3⟩, ⟨4, 5, 6⟩⟩ ⟨0, 1, 1⟩ 0 0 0 Frame.RIC) ∧
      propagateYA (propagateYACore ⟨⟨1, 2, 3⟩, ⟨4, 5, 6⟩⟩ ⟨0, 1, 1⟩ 0 0 0 Frame.RIC)
        ⟨0, 1, 1⟩ 0 0 (-0) Frame.RIC = Except.ok ⟨⟨1, 2, 3⟩, ⟨4, 5, 6⟩⟩) :=
  ⟨le_refl 0, by norm_num, by norm_num,
    propagateYA_forward_backward ⟨⟨1, 2, 3⟩, ⟨4, 5, 6⟩⟩ ⟨0, 1, 1⟩ 0 0 0 Frame.RIC
      (le_refl 0) (by norm_num) (by norm_num) (by norm_num)⟩

/-! ## Claim C9: the origin is a fixed point of the whole pipeline -/

/-- The all-zero relative state. -/
def zeroState : RelativeState := ⟨⟨0, 0, 0⟩, ⟨0, 0, 0⟩⟩

/-- C9: the all-zero state is mapped to the all-zero state by every transform
of the pipeline: both frame conversions, both coordinate transforms, the
in-plane pseudo-initialisation and transition, the out-of-plane transition,
`propagateHCW`, and (for valid eccentricity) `propagateYA`. -/
theorem zero_state_fixed_point (elements : OrbitalElements)
    (e theta0 thetaF deltaTime JValue n : ℝ) (frame : Frame) :
    toInternalFromFrame zeroState frame = zeroState ∧
    fromInternalToFrame zeroState frame = zeroState ∧
    toModifiedCoordinates zeroState elements theta0 = zeroState ∧
    fromModifiedCoordinates zeroState elements theta0 = zeroState ∧
    computePseudoInitialInPlane ⟨0, 0, 0, 0⟩ e theta0 = ⟨0, 0, 0, 0⟩ ∧
    propagateInPlane ⟨0, 0, 0, 0⟩ e thetaF JValue = ⟨0, 0, 0, 0⟩ ∧
    propagateOutOfPlane ⟨0, 0⟩ e theta0 thetaF = ⟨0, 0⟩ ∧
    propagateHCW zeroState n deltaTime frame = zeroState ∧
    (0 ≤ elements.eccentricity → elements.eccentricity < 1 →
      propagateYA zeroState elements theta0 thetaF deltaTime frame = Except.ok zeroState) := by
  have hframe : ∀ f : Frame, toInternalFromFrame zeroState f = zeroState ∧
      fromInternalToFrame zeroState f = zeroState := by
    intro f
    cases f <;> exact ⟨rfl, rfl⟩
  have htm : toModifiedCoordinates zeroState elements theta0 = zeroState := by
    unfold toModifiedCoordinates zeroState
    ext <;> simp
  have hfm : fromModifiedCoordinates zeroState elements theta0 = zeroState := by
    unfold fromModifiedCoordinates zeroState
    ext <;> simp
  have hps : computePseudoInitialInPlane ⟨0, 0, 0, 0⟩ e theta0 = ⟨0, 0, 0, 0⟩ := by
    unfold computePseudoInitialInPlane
    ext <;> simp
  have hip : propagateInPlane ⟨0, 0, 0, 0⟩ e thetaF JValue = ⟨0, 0, 0, 0⟩ := by
    unfold propagateInPlane
    ext <;> simp
  have hoop : propagateOutOfPlane ⟨0, 0⟩ e theta0 thetaF = ⟨0, 0⟩ := by
    unfold propagateOutOfPlane
    ext <;> simp
  have hhcw : propagateHCW zeroState n deltaTime frame = zeroState := by
    have hf1 := (hframe frame).1
    have hf2 := (hframe frame).2
    unfold propagateHCW
    simp only [zeroState] at hf1 hf2 ⊢
    simp only [hf1, mul_zero, zero_mul, add_zero, zero_add, neg_zero, zero_div,
      zero_sub, sub_zero]
    exact hf2
  refine ⟨(hframe frame).1, (hframe frame).2, htm, hfm, hps, hip, hoop, hhcw, ?_⟩
  intro he0 he1
  have hcond : ¬(elements.eccentricity < 0 ∨ 1 ≤ elements.eccentricity) := by
    rintro (h | h) <;> linarith
  unfold propagateYA
  rw [if_neg hcond]
  refine congrArg Except.ok ?_
  have hf1 := (hframe frame).1
  have hf2 := (hframe frame).2
  have hps2 : computePseudoInitialInPlane ⟨0, 0, 0, 0⟩ elements.eccentricity theta0 =
      ⟨0, 0, 0, 0⟩ := by
    unfold computePseudoInitialInPlane
    ext <;> simp
  have hip2 : propagateInPlane ⟨0, 0, 0, 0⟩ elements.eccentricity thetaF
      (J elements deltaTime) = ⟨0, 0, 0, 0⟩ := by
    unfold propagateInPlane
    ext <;> simp
  have hoop2 : propagateOutOfPlane ⟨0, 0⟩ elements.eccentricity theta0 thetaF = ⟨0, 0⟩ := by
    unfold propagateOutOfPlane
    ext <;> simp
  have hfm2 : fromModifiedCoordinates ⟨⟨0, 0, 0⟩, ⟨0, 0, 0⟩⟩ elements thetaF =
      (⟨⟨0, 0, 0⟩, ⟨0, 0, 0⟩⟩ : RelativeState) := by
    unfold fromModifiedCoordinates
    ext <;> simp
  unfold propagateYACore
  simp only [zeroState] at hf1 hf2 htm ⊢
  simp only [hf1, htm, hps2, hip2, hoop2, hfm2, hf2]

/-- Witness for C9 at a concrete input. -/
theorem zero_state_fixed_point_witness :
    (0 : ℝ) ≤ (⟨0, 1, 1⟩ : OrbitalElements).eccentricity ∧
    (⟨0, 1, 1⟩ : OrbitalElements).eccentricity < 1 ∧
    propagateYA zeroState ⟨0, 1, 1⟩ 0 0 0 Frame.RIC = Except.ok zeroState :=
  ⟨le_refl 0, by norm_num,
    (zero_state_fixed_point ⟨0, 1, 1⟩ 0 0 0 0 0 0 Frame.RIC).2.2.2.2.2.2.2.2
      (le_refl 0) (by norm_num)⟩

/-! ## Claim C1: circular-limit equivalence of YA and HCW -/

/-- With positive `h`, `(h ^ 1.5) * (h ^ 1.5) = h ^ 3`, so `kSquared` equals
the circular mean motion `mu^2 / h^3`. -/
lemma kSquared_eq_circular_rate (elements : OrbitalElements)
    (hh : 0 < elements.angularMomentum) :
    kSquared elements =
      elements.gravitationalParameter ^ 2 / elements.angularMomentum ^ 3 := by
  unfold kSquared
  simp only
  rw [div_mul_div_comm, ← Real.rpow_add hh]
  have h3 : (1.5 : ℝ) + 1.5 = ((3 : ℕ) : ℝ) := by norm_num
  rw [h3, Real.rpow_natCast]
  ring

set_option maxHeartbeats 2000000 in
/-- C1: for `e = 0` and `deltaTime = (thetaF - theta0) / n` with
`n = mu^2 / h^3` the circular mean motion, `propagateYA` agrees exactly with
`propagateHCW`, for every initial state, both anomalies, and both frames. -/
theorem circular_limit_equivalence (st : RelativeState) (elements : OrbitalElements)
    (theta0 thetaF : ℝ) (frame : Frame) (he : elements.eccentricity = 0)
    (hh : 0 < elements.angularMomentum) (hmu : 0 < elements.gravitationalParameter) :
    propagateYA st elements theta0 thetaF
        ((thetaF - theta0) /
          (elements.gravitationalParameter ^ 2 / elements.angularMomentum ^ 3)) frame =
      Except.ok
        (propagateHCW st
          (elements.gravitationalParameter ^ 2 / elements.angularMomentum ^ 3)
          ((thetaF - theta0) /
            (elements.gravitationalParameter ^ 2 / elements.angularMomentum ^ 3)) frame) := by
  have hcond : ¬(elements.eccentricity < 0 ∨ 1 ≤ elements.eccentricity) := by
    rw [he]
    norm_num
  have hn : (0 : ℝ) < elements.gravitationalParameter ^ 2 / elements.angularMomentum ^ 3 :=
    div_pos (pow_pos hmu 2) (pow_pos hh 3)
  set n := elements.gravitationalParameter ^ 2 / elements.angularMomentum ^ 3 with hndef
  have hn' : n ≠ 0 := ne_of_gt hn
  have hk2 : kSquared elements = n := kSquared_eq_circular_rate elements hh
  have hnt : n * ((thetaF - theta0) / n) = thetaF - theta0 := by
    field_simp
  unfold propagateYA
  rw [if_neg hcond]
  refine congrArg Except.ok ?_
  unfold propagateYACore propagateHCW
  cases frame
  all_goals
    simp only [toInternalFromFrame, fromInternalToFrame, toModifiedCoordinates,
      fromModifiedCoordinates, computePseudoInitialInPlane, propagateInPlane,
      propagateOutOfPlane, J, sPrime, cPrime, s, c, rho, he, hk2]
    rw [hnt, Real.sin_sub, Real.cos_sub]
    simp only [zero_mul, mul_zero, add_zero, zero_add, sub_zero, neg_zero, mul_one,
      one_mul, zero_div, div_one, zero_sub, neg_neg]
    ext <;> (field_simp; try ring)

/-- Witness for C1 at a concrete input. -/
theorem circular_limit_equivalence_witness :
    (⟨0, 1, 1⟩ : OrbitalElements).eccentricity = 0 ∧
    (0 : ℝ) < (⟨0, 1, 1⟩ : OrbitalElements).angularMomentum ∧
    (0 : ℝ) < (⟨0, 1, 1⟩ : OrbitalElements).gravitationalParameter ∧
    propagateYA ⟨⟨1, 2, 3⟩, ⟨4, 5, 6⟩⟩ ⟨0, 1, 1⟩ 0 0
        ((0 - 0) / ((1 : ℝ) ^ 2 / (1 : ℝ) ^ 3)) Frame.RIC =
      Except.ok
        (propagateHCW ⟨⟨1, 2, 3⟩, ⟨4, 5, 6⟩⟩ ((1 : ℝ) ^ 2 / (1 : ℝ) ^ 3)
          ((0 - 0) / ((1 : ℝ) ^ 2 / (1 : ℝ) ^ 3)) Frame.RIC) :=
  ⟨rfl, by norm_num, by norm_num,
    circular_limit_equivalence ⟨⟨1, 2, 3⟩, ⟨4, 5, 6⟩⟩ ⟨0, 1, 1⟩ 0 0 Frame.RIC rfl
      (by norm_num) (by norm_num)⟩

/-! ## Claim C6: validation raises exactly under the stated conditions -/

/-- C6: `propagateYA` fails with the invalid-eccentricity error precisely when
`e < 0` or `e ≥ 1` and otherwise succeeds; `deriveAngularMomentum` fails with
the invalid-eccentricity error when `e ∉ [0, 1)`, then with the
invalid-mean-motion error when `meanMotionRevPerDay ≤ 0`, and otherwise
returns a value.  Both validations precede any computation. -/
theorem validation_raises_exactly (st : RelativeState) (elements : OrbitalElements)
    (theta0 thetaF deltaTime : ℝ) (frame : Frame) (e n mu : ℝ) :
    ((elements.eccentricity < 0 ∨ 1 ≤ elements.eccentricity) →
      propagateYA st elements theta0 thetaF deltaTime frame =
        Except.error PropagationError.invalidEccentricity) ∧
    (0 ≤ elements.eccentricity → elements.eccentricity < 1 →
      propagateYA st elements theta0 thetaF deltaTime frame =
        Except.ok (propagateYACore st elements theta0 thetaF deltaTime frame)) ∧
    (¬(0 ≤ e ∧ e < 1) →
      deriveAngularMomentum e n mu = Except.error PropagationError.invalidEccentricity) ∧
    (0 ≤ e → e < 1 → ¬(0 < n) →
      deriveAngularMomentum e n mu = Except.error PropagationError.invalidMeanMotion) ∧
    (0 ≤ e → e < 1 → 0 < n →
      ∃ hval : ℝ, deriveAngularMomentum e n mu = Except.ok hval) := by
  refine ⟨?_, ?_, ?_, ?_, ?_⟩
  · intro h
    unfold propagateYA
    rw [if_pos h]
  · intro h0 h1
    unfold propagateYA
    rw [if_neg (by rintro (h | h) <;> linarith)]
  · intro h
    unfold deriveAngularMomentum
    rw [if_pos h]
  · intro h0 h1 h2
    unfold deriveAngularMomentum
    rw [if_neg (not_not_intro ⟨h0, h1⟩), if_pos h2]
  · intro h0 h1 h2
    unfold deriveAngularMomentum
    rw [if_neg (not_not_intro ⟨h0, h1⟩), if_neg (not_not_intro h2)]
    exact ⟨_, rfl⟩

/-- Witness for C6 at concrete inputs: an eccentricity of 2 is rejected by
both functions, a zero mean motion is rejected, and valid inputs succeed. -/
theorem validation_raises_exactly_witness :
    propagateYA zeroState ⟨2, 1, 1⟩ 0 0 0 Frame.LVLH =
      Except.error PropagationError.invalidEccentricity ∧
    deriveAngularMomentum 2 1 1 = Except.error PropagationError.invalidEccentricity ∧
    deriveAngularMomentum 0 0 1 = Except.error PropagationError.invalidMeanMotion ∧
    ∃ hval : ℝ, deriveAngularMomentum 0 1 1 = Except.ok hval :=
  ⟨(validation_raises_exactly zeroState ⟨2, 1, 1⟩ 0 0 0 Frame.LVLH 0 0 0).1 (by norm_num),
    (validation_raises_exactly zeroState ⟨2, 1, 1⟩ 0 0 0 Frame.LVLH 2 1 1).2.2.1
      (by norm_num),
    (validation_raises_exactly zeroState ⟨2, 1, 1⟩ 0 0 0 Frame.LVLH 0 0 1).2.2.2.1
      (le_refl 0) (by norm_num) (by norm_num),
    (validation_raises_exactly zeroState ⟨2, 1, 1⟩ 0 0 0 Frame.LVLH 0 1 1).2.2.2.2
      (le_refl 0) (by norm_num) (by norm_num)⟩

/-! ## Claim C7: the Kepler solver is total and iteration-bounded -/

/-- The bounded Newton loop: its result is a `k ≤ fuel`-fold iterate of the
Newton update (early exit on convergence), and when the tolerance can never be
met (`tolerance ≤ 0`) it performs exactly `fuel` updates — the final-iteration
fallback. -/
lemma keplerLoop_iterate (eccentricity meanAnomaly tolerance : ℝ) :
    ∀ (fuel : ℕ) (E : ℝ), ∃ k ≤ fuel,
      keplerLoop eccentricity meanAnomaly tolerance fuel E =
        (newtonStep eccentricity meanAnomaly)^[k] E ∧
      (tolerance ≤ 0 → k = fuel) := by
  intro fuel
  induction fuel with
  | zero =>
      intro E
      exact ⟨0, le_refl 0, rfl, fun _ => rfl⟩
  | succ m ih =>
      intro E
      by_cases hc : |E - newtonStep eccentricity meanAnomaly E| < tolerance
      · refine ⟨1, Nat.succ_le_succ (Nat.zero_le m), ?_, ?_⟩
        · simp only [keplerLoop]
          rw [if_pos hc]
          rfl
        · intro ht
          exfalso
          have hnn := abs_nonneg (E - newtonStep eccentricity meanAnomaly E)
          linarith
      · obtain ⟨k, hk, heq, hful⟩ := ih (newtonStep eccentricity meanAnomaly E)
        refine ⟨k + 1, Nat.succ_le_succ hk, ?_, fun ht => by rw [hful ht]⟩
        simp only [keplerLoop]
        rw [if_neg hc, heq, Function.iterate_succ_apply]

/-- C7: `trueAnomalyFromMean` is total — for every mean anomaly, eccentricity
and tolerance its value is the half-angle conversion of at most 100 Newton
updates started at `E = meanAnomaly`, with the last iterate used as fallback
(exactly 100 updates) whenever the update magnitude can never fall below the
tolerance. -/
theorem trueAnomalyFromMean_total (meanAnomaly eccentricity tolerance : ℝ) :
    ∃ k ≤ 100,
      trueAnomalyFromMean meanAnomaly eccentricity tolerance =
        eccentricToTrue eccentricity
          ((newtonStep eccentricity meanAnomaly)^[k] meanAnomaly) ∧
      (tolerance ≤ 0 → k = 100) := by
  obtain ⟨k, hk, heq, hful⟩ :=
    keplerLoop_iterate eccentricity meanAnomaly tolerance 100 meanAnomaly
  refine ⟨k, hk, ?_, hful⟩
  unfold trueAnomalyFromMean
  rw [heq]

/-- Witness for C7 at a concrete input. -/
theorem trueAnomalyFromMean_total_witness :
    ∃ k ≤ 100,
      trueAnomalyFromMean 0 0 1 = eccentricToTrue 0 ((newtonStep 0 0)^[k] 0) ∧
      ((1 : ℝ) ≤ 0 → k = 100) :=
  trueAnomalyFromMean_total 0 0 1

end HCWYA
